import Mathlib

/-!
Shallow embedding of `examples/pltslamshow.py` (BreezySLAM pyplot display
classes) and proofs about its core logic: coordinate transforms, map raster
compositing, robot-polyline geometry, velocity bars, trajectory rendering,
and the refresh loop.

Python floats are modelled as rationals (all values appearing in the claims
are exactly representable); `math.sin`/`math.cos` are modelled by the exact
real functions.  Python `int(...)` conversion truncates toward zero and is
modelled by `pyInt` / `intTrunc`.
-/

set_option linter.unusedVariables false

namespace PltSlamShow

/-! ### Module-level constants (source lines 20-47) -/

def ROBOT_HEIGHT : ℤ := 16

def ROBOT_WIDTH : ℤ := 10

def ROBOT_HEIGHT_MM : ℤ := 500

def ROBOT_WIDTH_MM : ℤ := 300

def SENSOR_V_MAX_MM : ℤ := 1000

def SENSOR_THETA_MAX_DEG : ℤ := 20

def SENSOR_BAR_X : ℤ := 150

def SENSOR_BAR_Y_OFFSET : ℤ := 3

def SENSOR_BAR_WIDTH : ℤ := 20

def SENSOR_BAR_MAX_HEIGHT : ℤ := 200

def SENSOR_V_Y : ℤ := 30

def SENSOR_THETA_Y : ℤ := 80

def SENSOR_POSITIVE_COLOR_BGR : ℤ × ℤ × ℤ := (0, 255, 0)

def SENSOR_NEGATIVE_COLOR_BGR : ℤ × ℤ × ℤ := (0, 0, 255)

/-! ### Python `int(...)` conversion: truncation toward zero -/

/-- Python `int(q)` on a rational value: truncation toward zero
(floor for nonnegative, ceiling for negative). -/
def pyInt (q : ℚ) : ℤ :=
  if q < 0 then ⌈q⌉ else ⌊q⌋

/-! ### `mm2pix` (source lines 252-253): `int(mm / float(self.map_scale_mm_per_pixel))` -/

/-- `SlamShow.mm2pix`: converts millimeters to pixels,
`int(mm / float(map_scale_mm_per_pixel))`. -/
def mm2pix (map_scale_mm_per_pixel : ℚ) (mm : ℚ) : ℤ :=
  pyInt (mm / map_scale_mm_per_pixel)

/-! ### `robot_polyline` (source lines 242-248)

Python 2 integer division on the int constants: `-ROBOT_HEIGHT / 2 = -8`,
`ROBOT_HEIGHT / 2 = 8`, `ROBOT_WIDTH / 2 = 5`; all divisions are exact, so
floor-division and the Lean `ℤ` division agree.  Note the source computes
`ytop` from `ROBOT_HEIGHT`, not `ROBOT_WIDTH`. -/

/-- `SlamShow.robot_polyline(scale)`: the three vertices
`[(xlft, ybot), (xrgt, 0), (xlft, ytop)]` of the robot icon. -/
def robot_polyline (scale : ℚ) : List (ℚ × ℚ) :=
  let xlft : ℚ := (((-ROBOT_HEIGHT) / 2 : ℤ) : ℚ) * scale
  let xrgt : ℚ := ((ROBOT_HEIGHT / 2 : ℤ) : ℚ) * scale
  let ybot : ℚ := ((ROBOT_WIDTH / 2 : ℤ) : ℚ) * scale
  let ytop : ℚ := (((-ROBOT_HEIGHT) / 2 : ℤ) : ℚ) * scale
  [(xlft, ybot), (xrgt, 0), (xlft, ytop)]

example : robot_polyline 1 = [(-8, 5), (8, 0), (-8, -8)] := by
  norm_num [robot_polyline, ROBOT_HEIGHT, ROBOT_WIDTH]

example : mm2pix 10 1000 = 100 := by
  norm_num [mm2pix, pyInt]

example : mm2pix 10 (-5) = 0 := by
  norm_num [mm2pix, pyInt]

/-! ### Trigonometric helpers (source lines 55-61, 262-267)

`math.radians`, `math.cos`, `math.sin` are modelled by the exact real
functions; `int(...)` on the real results is `intTrunc`. -/

/-- Python `int(r)` on a real value: truncation toward zero. -/
noncomputable def intTrunc (r : ℝ) : ℤ :=
  if r < 0 then ⌈r⌉ else ⌊r⌋

/-- `math.radians(deg)`. -/
noncomputable def radians (deg : ℝ) : ℝ :=
  deg * Real.pi / 180

/-- Module-level `rotate(pt, deg)` (source lines 262-267): rotates a point
about the origin by `deg` degrees and truncates each coordinate with
`int(...)`. -/
noncomputable def rotate (pt : ℝ × ℝ) (deg : ℝ) : ℤ × ℤ :=
  let rad := radians deg
  let c := Real.cos rad
  let s := Real.sin rad
  (intTrunc (pt.1 * c - pt.2 * s), intTrunc (pt.1 * s + pt.2 * c))

/-- `_rotate(x, y, r, theta_deg)` (source lines 57-61): offsets `(x, y)` by a
vector of length `r` at angle `theta_deg`, without truncation. -/
noncomputable def rotateFrom (x y r theta_deg : ℝ) : ℝ × ℝ :=
  let theta := radians theta_deg
  (x + r * Real.cos theta, y + r * Real.sin theta)

/-! ### Pose arrow (source lines 110-111, 183-188) -/

/-- The matplotlib arrow annotation created by `_add_vehicle`. -/
structure Arrow where
  x : ℝ
  y : ℝ
  dx : ℝ
  dy : ℝ
  head_width : ℝ
  head_length : ℝ

/-- `SlamShow._add_vehicle(x_mm, y_mm, theta_deg)` (source lines 183-188):
draws an arrow at `(x_mm, y_mm)` whose direction vector is
`_rotate(0, 0, .1, theta_deg)`. -/
noncomputable def add_vehicle (x_mm y_mm theta_deg : ℝ) : Arrow :=
  let d := rotateFrom 0 0 (1 / 10) theta_deg
  ⟨x_mm, y_mm, d.1, d.2, (ROBOT_WIDTH_MM : ℝ), (ROBOT_HEIGHT_MM : ℝ)⟩

/-- The pose arrow seeded by `SlamShow.__init__` (source line 111):
`self._add_vehicle(16000, 16000, 0)`, regardless of the constructor
arguments `map_size_pixels` and `map_scale_mm_per_pixel`. -/
noncomputable def init_vehicle (map_size_pixels map_scale_mm_per_pixel : ℚ) : Arrow :=
  add_vehicle 16000 16000 0

/-! ### `show_velocity` (source lines 229-236)

Only the geometry and color of the bar rectangle are modelled; the
`cv.PutText` label call has no data content beyond its fixed arguments. -/

/-- `SlamShow.show_velocity(value, valspan, label, y)`: the bar rectangle
`((bar_x1, bar_y1), (bar_x2, bar_y2))` and its BGR color. -/
def show_velocity (value valspan : ℚ) (y : ℤ) : ((ℤ × ℤ) × (ℤ × ℤ)) × (ℤ × ℤ × ℤ) :=
  let bar_x1 := SENSOR_BAR_X + SENSOR_BAR_MAX_HEIGHT
  let bar_y1 := y + SENSOR_BAR_Y_OFFSET
  let bar_x2 := bar_x1 + pyInt (value / valspan * (SENSOR_BAR_MAX_HEIGHT : ℚ))
  let bar_y2 := y - SENSOR_BAR_WIDTH + SENSOR_BAR_Y_OFFSET
  let bar_color := if value < 0 then SENSOR_NEGATIVE_COLOR_BGR else SENSOR_POSITIVE_COLOR_BGR
  (((bar_x1, bar_y1), (bar_x2, bar_y2)), bar_color)

/-! ### `displayTrajectory` (source lines 156-166)

`for k in range(1, len(trajectory))` emits one `cv.Line` per `k`, from the
pixel transform of `trajectory[k-1]` to that of `trajectory[k]`. -/

/-- `SlamShow.displayTrajectory(trajectory)`: the list of emitted line
segments, in loop order. -/
def displayTrajectory (map_scale_mm_per_pixel : ℚ) (trajectory : List (ℚ × ℚ)) :
    List ((ℤ × ℤ) × (ℤ × ℤ)) :=
  (List.range' 1 (trajectory.length - 1)).map (fun k =>
    let p1 := trajectory.getD (k - 1) (0, 0)
    let p2 := trajectory.getD k (0, 0)
    ((mm2pix map_scale_mm_per_pixel p1.1, mm2pix map_scale_mm_per_pixel p1.2),
     (mm2pix map_scale_mm_per_pixel p2.1, mm2pix map_scale_mm_per_pixel p2.2)))

/-! ### `displayMap` (source lines 113-123)

`self.bgrbytes[c::3] = mapbytes` for `c = 0, 1, 2` is CPython extended-slice
assignment on a bytearray: the target slice `c::3` of a buffer of length `L`
has `(L - c + 2) / 3` positions; assignment requires the source length to
equal that count (raising `ValueError` before any byte is written otherwise)
and then writes `mapbytes[j]` to position `c + 3*j` for each `j`. -/

/-- One extended-slice assignment `buf[c::3] = vals`, assuming the length
check passed: position `i` receives `vals[(i - c) / 3]` when `i ≡ c (mod 3)`
and keeps `buf[i]` otherwise. -/
def sliceAssign (buf : List ℕ) (c : ℕ) (vals : List ℕ) : List ℕ :=
  (List.range buf.length).map (fun i =>
    if c ≤ i ∧ (i - c) % 3 = 0 then vals.getD ((i - c) / 3) (buf.getD i 0) else buf.getD i 0)

/-- Number of positions of the extended slice `c::3` in a buffer of length `L`. -/
def sliceLen (L c : ℕ) : ℕ :=
  (L - c + 2) / 3

/-- `buf[c::3] = vals` with CPython semantics: `ValueError` (raised before
any mutation) when the lengths disagree. -/
def sliceAssignRun (buf : List ℕ) (c : ℕ) (vals : List ℕ) : Except String (List ℕ) :=
  if vals.length = sliceLen buf.length c then Except.ok (sliceAssign buf c vals)
  else Except.error "ValueError"

/-- `SlamShow.displayMap(mapbytes)` on the happy path: the three slice
assignments into `self.bgrbytes`, in source order. -/
def displayMap (bgrbytes : List ℕ) (mapbytes : List ℕ) : List ℕ :=
  sliceAssign (sliceAssign (sliceAssign bgrbytes 0 mapbytes) 1 mapbytes) 2 mapbytes

/-- `SlamShow.displayMap(mapbytes)` run statement by statement: returns the
buffer state after the call together with the raised error, if any. -/
def displayMapRun (bgrbytes : List ℕ) (mapbytes : List ℕ) : List ℕ × Option String :=
  match sliceAssignRun bgrbytes 0 mapbytes with
  | Except.error e => (bgrbytes, some e)
  | Except.ok b1 =>
    match sliceAssignRun b1 1 mapbytes with
    | Except.error e => (b1, some e)
    | Except.ok b2 =>
      match sliceAssignRun b2 2 mapbytes with
      | Except.error e => (b2, some e)
      | Except.ok b3 => (b3, none)

/-! ### `refresh` (source lines 191-211)

`refresh` reads `self.figid` (written once, in `__init__`) and per-call
external observations: the identity of the current matplotlib figure, whether
`plt.pause(.01)` raised (the bare `except:` catches every exception), and the
key code returned by `cv.WaitKey(1)` (`-1` when no key is pending).  It
writes no instance state.  The external observations of one call are
gathered in `RefreshInput`. -/

/-- Per-call external observations consumed by `refresh`. -/
structure RefreshInput where
  curFigId : ℕ
  pauseInterrupted : Bool
  key : ℤ
  deriving Repr, DecidableEq

/-- `plt.pause(.01)` as observed by `refresh`: either completes or raises. -/
def plt_pause (interrupted : Bool) : Except Unit Unit :=
  if interrupted then Except.error () else Except.ok ()

/-- `SlamShow.refresh()`: `Except.ok b` models an ordinary return of `b`;
`Except.error` would model an uncaught exception escaping to the caller. -/
def refresh (figid : ℕ) (inp : RefreshInput) : Except String Bool :=
  if figid ≠ inp.curFigId then Except.ok false
  else
    match plt_pause inp.pauseInterrupted with
    | Except.error _ => Except.ok false
    | Except.ok _ => Except.ok (if inp.key = 27 then false else true)

/-! ### Helper lemmas -/

lemma sliceAssign_length (buf : List ℕ) (c : ℕ) (vals : List ℕ) :
    (sliceAssign buf c vals).length = buf.length := by
  simp [sliceAssign]

lemma sliceAssign_getD (buf vals : List ℕ) (c i : ℕ) (hi : i < buf.length) :
    (sliceAssign buf c vals).getD i 0 =
      if c ≤ i ∧ (i - c) % 3 = 0 then vals.getD ((i - c) / 3) (buf.getD i 0)
      else buf.getD i 0 := by
  have hlen : i < (sliceAssign buf c vals).length := by
    rw [sliceAssign_length]; exact hi
  rw [List.getD_eq_getElem _ _ hlen]
  simp only [sliceAssign, List.getElem_map, List.getElem_range]

lemma getD_default_eq (l : List ℕ) (i d d' : ℕ) (h : i < l.length) :
    l.getD i d = l.getD i d' := by
  rw [List.getD_eq_getElem l d h, List.getD_eq_getElem l d' h]

lemma displayMap_getD (n : ℕ) (bgr m : List ℕ) (hb : bgr.length = 3 * n)
    (hm : m.length = n) (k c : ℕ) (hk : k < n) (hc : c < 3) :
    (displayMap bgr m).getD (3 * k + c) 0 = m.getD k 0 := by
  have l1 : (sliceAssign bgr 0 m).length = bgr.length := sliceAssign_length _ _ _
  have l2 : (sliceAssign (sliceAssign bgr 0 m) 1 m).length = bgr.length := by
    rw [sliceAssign_length, l1]
  have hkm : k < m.length := by omega
  unfold displayMap
  interval_cases c
  · rw [sliceAssign_getD _ _ 2 (3 * k + 0) (by omega)]
    rw [if_neg (by omega)]
    rw [sliceAssign_getD _ _ 1 (3 * k + 0) (by omega)]
    rw [if_neg (by omega)]
    rw [sliceAssign_getD _ _ 0 (3 * k + 0) (by omega)]
    rw [if_pos (by omega)]
    have hq : (3 * k + 0 - 0) / 3 = k := by omega
    rw [hq]
    exact getD_default_eq m k _ 0 hkm
  · rw [sliceAssign_getD _ _ 2 (3 * k + 1) (by omega)]
    rw [if_neg (by omega)]
    rw [sliceAssign_getD _ _ 1 (3 * k + 1) (by omega)]
    rw [if_pos (by omega)]
    have hq : (3 * k + 1 - 1) / 3 = k := by omega
    rw [hq]
    exact getD_default_eq m k _ 0 hkm
  · rw [sliceAssign_getD _ _ 2 (3 * k + 2) (by omega)]
    rw [if_pos (by omega)]
    have hq : (3 * k + 2 - 2) / 3 = k := by omega
    rw [hq]
    exact getD_default_eq m k _ 0 hkm

lemma displayMapRun_ok (n : ℕ) (bgr m : List ℕ) (hb : bgr.length = 3 * n)
    (hm : m.length = n) :
    displayMapRun bgr m = (displayMap bgr m, none) := by
  have s0 : sliceAssignRun bgr 0 m = Except.ok (sliceAssign bgr 0 m) := by
    unfold sliceAssignRun sliceLen
    rw [if_pos (by omega)]
  have s1 : sliceAssignRun (sliceAssign bgr 0 m) 1 m =
      Except.ok (sliceAssign (sliceAssign bgr 0 m) 1 m) := by
    unfold sliceAssignRun sliceLen
    rw [sliceAssign_length, if_pos (by omega)]
  have s2 : sliceAssignRun (sliceAssign (sliceAssign bgr 0 m) 1 m) 2 m =
      Except.ok (sliceAssign (sliceAssign (sliceAssign bgr 0 m) 1 m) 2 m) := by
    unfold sliceAssignRun sliceLen
    rw [sliceAssign_length, sliceAssign_length, if_pos (by omega)]
  simp only [displayMapRun, s0, s1, s2, displayMap]

lemma displayMapRun_err (n : ℕ) (bgr m : List ℕ) (hb : bgr.length = 3 * n)
    (hm : m.length ≠ n) :
    displayMapRun bgr m = (bgr, some "ValueError") := by
  have s0 : sliceAssignRun bgr 0 m = Except.error "ValueError" := by
    unfold sliceAssignRun sliceLen
    rw [if_neg (by omega)]
  simp only [displayMapRun, s0]

lemma intTrunc_intCast (n : ℤ) : intTrunc (n : ℝ) = n := by
  unfold intTrunc
  split_ifs <;> simp

lemma radians_90 : radians 90 = Real.pi / 2 := by
  unfold radians; ring

lemma radians_180 : radians 180 = Real.pi := by
  unfold radians; ring

lemma radians_0 : radians 0 = 0 := by
  unfold radians; ring

/-! ### Claim theorems -/

/-- Claim C1: the spec states that `robot_polyline(1)` is an isosceles
triangle symmetric about the x-axis with y-extent `ROBOT_WIDTH`.  The code
computes `ytop` from `ROBOT_HEIGHT` (source line 247), so the returned
points are `[(-8, 5), (8, 0), (-8, -8)]`: the x-extent is 16 =
`ROBOT_HEIGHT`, but the y-extent is 13 ≠ `ROBOT_WIDTH` = 10 and the first
and third vertices are not mirror images across the x-axis, contradicting
the code's own comment (isosceles triangle centered at (0,0)). -/
theorem C1_robot_polyline_eval :
    robot_polyline 1 = [(-8, 5), (8, 0), (-8, -8)] ∧
    ((robot_polyline 1).getD 1 (0, 0)).1 - ((robot_polyline 1).getD 0 (0, 0)).1 =
      (ROBOT_HEIGHT : ℚ) ∧
    ((robot_polyline 1).getD 0 (0, 0)).2 - ((robot_polyline 1).getD 2 (0, 0)).2 ≠
      (ROBOT_WIDTH : ℚ) ∧
    ((robot_polyline 1).getD 0 (0, 0)).2 ≠ -((robot_polyline 1).getD 2 (0, 0)).2 := by
  have h : robot_polyline 1 = [(-8, 5), (8, 0), (-8, -8)] := by
    norm_num [robot_polyline, ROBOT_HEIGHT, ROBOT_WIDTH]
  refine ⟨h, ?_, ?_, ?_⟩ <;>
    rw [h] <;>
    norm_num [List.getD_cons_zero, List.getD_cons_succ, ROBOT_HEIGHT, ROBOT_WIDTH]

/-- Claim C2 counterexample: with the session's stored figure id (1), a
refresh call that polls ESC (key 27) returns false, yet the next refresh
call on the same session (same `figid`: `refresh` writes no instance state)
with no key pending returns true.  The code has no terminal STOPPED state,
so the claim "every subsequent refresh call also returns false" is false. -/
theorem C2_counterexample :
    refresh 1 ⟨1, false, 27⟩ = Except.ok false ∧
    refresh 1 ⟨1, false, -1⟩ = Except.ok true := by
  constructor <;> simp [refresh, plt_pause]

/-- Claim C2 (amended): `refresh` keeps no stopped state; its result is a
function of the current call's observations alone.  It returns false exactly
when this call observes a figure-identity mismatch, an interrupted pause, or
the ESC key (27); otherwise it returns true, even right after an ESC-caused
false return. -/
theorem C2_refresh_stateless :
    ∀ (figid : ℕ) (inp : RefreshInput),
      refresh figid inp = Except.ok false ↔
        (figid ≠ inp.curFigId ∨ inp.pauseInterrupted = true ∨ inp.key = 27) := by
  intro figid inp
  by_cases h1 : figid ≠ inp.curFigId
  · simp [refresh, h1]
  · by_cases h2 : inp.pauseInterrupted <;> by_cases h3 : inp.key = 27 <;>
      simp [refresh, plt_pause, h1, h2, h3]

/-- Claim C3: for a stored raster of length `3·s²` and a grayscale map
buffer of length `s²`, `displayMap` completes without error and produces a
raster of length `3·s²` whose bytes `3k`, `3k+1`, `3k+2` all equal
`mapbytes[k]` — independent of the prior raster contents, so the call
replaces them; on the spec's size-2 example it yields exactly the stated 12
bytes. -/
theorem C3_displayMap_interleave :
    (∀ (s : ℕ) (bgr m : List ℕ), bgr.length = 3 * (s * s) → m.length = s * s →
      (displayMap bgr m).length = 3 * (s * s) ∧
      displayMapRun bgr m = (displayMap bgr m, none) ∧
      ∀ k < s * s, ∀ c < 3, (displayMap bgr m).getD (3 * k + c) 0 = m.getD k 0) ∧
    displayMap (List.replicate 12 0) [10, 20, 30, 40] =
      [10, 10, 10, 20, 20, 20, 30, 30, 30, 40, 40, 40] := by
  constructor
  · intro s bgr m hb hm
    refine ⟨?_, displayMapRun_ok (s * s) bgr m hb hm, ?_⟩
    · rw [displayMap, sliceAssign_length, sliceAssign_length, sliceAssign_length, hb]
    · intro k hk c hc
      exact displayMap_getD (s * s) bgr m hb hm k c hk hc
  · decide

/-- Witness for C3: the general theorem applied at the spec's size-2
example. -/
theorem C3_witness :
    (List.replicate 12 0 : List ℕ).length = 3 * (2 * 2) ∧
    ([10, 20, 30, 40] : List ℕ).length = 2 * 2 ∧
    (displayMap (List.replicate 12 0) [10, 20, 30, 40]).getD (3 * 1 + 2) 0 =
      List.getD [10, 20, 30, 40] 1 0 :=
  ⟨by decide, by decide,
   (C3_displayMap_interleave.1 2 (List.replicate 12 0) [10, 20, 30, 40]
      (by decide) (by decide)).2.2 1 (by decide) 2 (by decide)⟩

/-- Claim C4: `mm2pix` truncates `mm / scale` toward zero — floor for a
nonnegative quotient, ceiling for a negative one — and in particular
`mm2pix(1000)` at scale 10 is 100 while `mm2pix(-5)` at scale 10 is 0
(flooring would give -1). -/
theorem C4_mm2pix_truncation :
    (∀ mm scale : ℚ, 0 < scale →
      (0 ≤ mm → mm2pix scale mm = ⌊mm / scale⌋) ∧
      (mm < 0 → mm2pix scale mm = ⌈mm / scale⌉)) ∧
    mm2pix 10 1000 = 100 ∧
    mm2pix 10 (-5) = 0 ∧
    ⌊(-5 : ℚ) / 10⌋ = -1 := by
  refine ⟨?_, by norm_num [mm2pix, pyInt], by norm_num [mm2pix, pyInt], by norm_num⟩
  intro mm scale hs
  constructor
  · intro hmm
    unfold mm2pix pyInt
    rw [if_neg (not_lt.mpr (div_nonneg hmm hs.le))]
  · intro hmm
    unfold mm2pix pyInt
    rw [if_pos (div_neg_of_neg_of_pos hmm hs)]

/-- Witness for C4 at `mm = 1000` and `mm = -5`, `scale = 10`. -/
theorem C4_witness :
    mm2pix 10 1000 = ⌊(1000 : ℚ) / 10⌋ ∧ mm2pix 10 (-5) = ⌈(-5 : ℚ) / 10⌉ :=
  ⟨(C4_mm2pix_truncation.1 1000 10 (by norm_num)).1 (by norm_num),
   (C4_mm2pix_truncation.1 (-5) 10 (by norm_num)).2 (by norm_num)⟩

/-- Claim C5: `rotate` implements counter-clockwise rotation with truncation
to integers: `rotate((10,0), 90) = (0, 10)`, `rotate((10,0), 180) =
(-10, 0)`, and `rotate(p, 0) = p` for every (integer-coordinate) point `p`
— `rotate` returns integer pairs, so the identity claim is read over
integer points. -/
theorem C5_rotate_properties :
    rotate (10, 0) 90 = (0, 10) ∧
    rotate (10, 0) 180 = (-10, 0) ∧
    ∀ p : ℤ × ℤ, rotate ((p.1 : ℝ), (p.2 : ℝ)) 0 = p := by
  refine ⟨?_, ?_, ?_⟩
  · simp only [rotate, radians_90, Real.cos_pi_div_two, Real.sin_pi_div_two]
    have h1 : (10 : ℝ) * 0 - 0 * 1 = ((0 : ℤ) : ℝ) := by norm_num
    have h2 : (10 : ℝ) * 1 + 0 * 0 = ((10 : ℤ) : ℝ) := by norm_num
    rw [h1, h2, intTrunc_intCast, intTrunc_intCast]
  · simp only [rotate, radians_180, Real.cos_pi, Real.sin_pi]
    have h1 : (10 : ℝ) * (-1) - 0 * 0 = ((-10 : ℤ) : ℝ) := by norm_num
    have h2 : (10 : ℝ) * 0 + 0 * (-1) = ((0 : ℤ) : ℝ) := by norm_num
    rw [h1, h2, intTrunc_intCast, intTrunc_intCast]
  · intro p
    simp only [rotate, radians_0, Real.cos_zero, Real.sin_zero]
    have h1 : (p.1 : ℝ) * 1 - (p.2 : ℝ) * 0 = ((p.1 : ℤ) : ℝ) := by ring
    have h2 : (p.1 : ℝ) * 0 + (p.2 : ℝ) * 1 = ((p.2 : ℤ) : ℝ) := by ring
    rw [h1, h2, intTrunc_intCast, intTrunc_intCast]

/-- Claim C6: the spec states that initialization seeds the pose arrow at
the center of the map extent, `map_size_pixels × map_scale_mm_per_pixel / 2`
in each axis.  Source line 111 hardcodes `_add_vehicle(16000, 16000, 0)`:
for `map_size_pixels = 500`, `map_scale_mm_per_pixel = 10` the center is
2500 mm in each axis but the arrow is seeded at 16000 mm.  (The orientation
part of the claim does hold: the seeded direction vector has zero y
component.)  The code's own comment claims "Starting vehicle at Center". -/
theorem C6_init_vehicle_eval :
    (init_vehicle 500 10).x = 16000 ∧ (init_vehicle 500 10).y = 16000 ∧
    (init_vehicle 500 10).dy = 0 ∧
    (500 : ℚ) * 10 / 2 = 2500 ∧ ((16000 : ℝ) ≠ 2500) := by
  refine ⟨?_, ?_, ?_, by norm_num, by norm_num⟩
  · simp [init_vehicle, add_vehicle]
  · simp [init_vehicle, add_vehicle]
  · simp [init_vehicle, add_vehicle, rotateFrom, radians_0]

/-- Claim C7: the velocity bar's signed length is
`int(value / valspan * SENSOR_BAR_MAX_HEIGHT)` with no clamping (a value of
twice the span yields length 400 > 200 = `SENSOR_BAR_MAX_HEIGHT`), and the
bar color is the fixed positive color exactly when `value ≥ 0`: value 0
selects positive, value -1 selects negative. -/
theorem C7_show_velocity_bar :
    (∀ (value valspan : ℚ) (y : ℤ),
      (show_velocity value valspan y).1.2.1 - (show_velocity value valspan y).1.1.1 =
        pyInt (value / valspan * (SENSOR_BAR_MAX_HEIGHT : ℚ)) ∧
      ((show_velocity value valspan y).2 = SENSOR_POSITIVE_COLOR_BGR ↔ 0 ≤ value)) ∧
    (show_velocity 2000 1000 30).1.2.1 - (show_velocity 2000 1000 30).1.1.1 = 400 ∧
    SENSOR_BAR_MAX_HEIGHT < 400 ∧
    (show_velocity 0 1000 30).2 = SENSOR_POSITIVE_COLOR_BGR ∧
    (show_velocity (-1) 1000 30).2 = SENSOR_NEGATIVE_COLOR_BGR ∧
    SENSOR_POSITIVE_COLOR_BGR ≠ SENSOR_NEGATIVE_COLOR_BGR := by
  refine ⟨?_, ?_, ?_, ?_, ?_, ?_⟩
  · intro value valspan y
    constructor
    · simp only [show_velocity]
      ring
    · simp only [show_velocity]
      split_ifs with h
      · simp only [SENSOR_NEGATIVE_COLOR_BGR, SENSOR_POSITIVE_COLOR_BGR, Prod.mk.injEq]
        constructor
        · rintro ⟨-, h255, -⟩
          exact absurd h255 (by norm_num)
        · intro h0
          exact absurd h (not_lt.mpr h0)
      · simp only [true_iff, eq_self_iff_true]
        exact not_lt.mp h
  · norm_num [show_velocity, pyInt, SENSOR_BAR_X, SENSOR_BAR_MAX_HEIGHT]
  · norm_num [SENSOR_BAR_MAX_HEIGHT]
  · norm_num [show_velocity, SENSOR_POSITIVE_COLOR_BGR]
  · norm_num [show_velocity, SENSOR_NEGATIVE_COLOR_BGR]
  · norm_num [SENSOR_POSITIVE_COLOR_BGR, SENSOR_NEGATIVE_COLOR_BGR]

/-- Claim C8: `displayTrajectory` emits exactly `len - 1` (truncated at 0)
line segments: none for an empty or one-point trajectory, and for
`[p0, p1, p2]` exactly the two segments `p0→p1` then `p1→p2`, each endpoint
converted by `mm2pix`, in input order. -/
theorem C8_displayTrajectory_segments :
    (∀ (scale : ℚ) (trajectory : List (ℚ × ℚ)),
      (displayTrajectory scale trajectory).length = trajectory.length - 1) ∧
    (∀ scale : ℚ, displayTrajectory scale [] = []) ∧
    (∀ (scale : ℚ) (p : ℚ × ℚ), displayTrajectory scale [p] = []) ∧
    (∀ (scale : ℚ) (p0 p1 p2 : ℚ × ℚ),
      displayTrajectory scale [p0, p1, p2] =
        [((mm2pix scale p0.1, mm2pix scale p0.2), (mm2pix scale p1.1, mm2pix scale p1.2)),
         ((mm2pix scale p1.1, mm2pix scale p1.2), (mm2pix scale p2.1, mm2pix scale p2.2))]) := by
  refine ⟨?_, ?_, ?_, ?_⟩
  · intro scale trajectory
    simp [displayTrajectory]
  · intro scale
    rfl
  · intro scale p
    rfl
  · intro scale p0 p1 p2
    rfl

/-- Claim C9: `refresh` never lets an exception escape to its caller: it
always returns an ordinary boolean, and both soft-failure causes — a figure
identity differing from the one captured at construction, and an
interruption raised inside the bounded pause (caught by the bare
`except:`) — surface solely as the return value false. -/
theorem C9_refresh_no_exception :
    ∀ (figid : ℕ) (inp : RefreshInput),
      (∃ b, refresh figid inp = Except.ok b) ∧
      (figid ≠ inp.curFigId → refresh figid inp = Except.ok false) ∧
      (inp.pauseInterrupted = true → refresh figid inp = Except.ok false) := by
  intro figid inp
  refine ⟨?_, ?_, ?_⟩
  · by_cases h1 : figid ≠ inp.curFigId
    · exact ⟨false, by simp [refresh, h1]⟩
    · by_cases h2 : inp.pauseInterrupted
      · exact ⟨false, by simp [refresh, plt_pause, h1, h2]⟩
      · by_cases h3 : inp.key = 27
        · exact ⟨false, by simp [refresh, plt_pause, h1, h2, h3]⟩
        · exact ⟨true, by simp [refresh, plt_pause, h1, h2, h3]⟩
  · intro h
    simp [refresh, h]
  · intro h
    by_cases h1 : figid ≠ inp.curFigId
    · simp [refresh, h1]
    · simp [refresh, plt_pause, h1, h]

/-- Witness for C9: a mismatched figure id and an interrupted pause, at
concrete inputs. -/
theorem C9_witness :
    refresh 1 ⟨2, true, 0⟩ = Except.ok false ∧
    refresh 2 ⟨2, true, 0⟩ = Except.ok false :=
  ⟨(C9_refresh_no_exception 1 ⟨2, true, 0⟩).2.1 (by decide),
   (C9_refresh_no_exception 2 ⟨2, true, 0⟩).2.2 rfl⟩

/-- Claim C10: calling `displayMap` with a map buffer whose length differs
from size² raises `ValueError` on the first extended-slice assignment —
CPython checks the length before writing any byte — so the stored raster is
left exactly as it was. -/
theorem C10_displayMap_raises :
    ∀ (s : ℕ) (bgr m : List ℕ), bgr.length = 3 * (s * s) → m.length ≠ s * s →
      displayMapRun bgr m = (bgr, some "ValueError") := by
  intro s bgr m hb hm
  exact displayMapRun_err (s * s) bgr m hb hm

/-- Witness for C10: size 2, a 3-byte map buffer against the 12-byte
raster. -/
theorem C10_witness :
    displayMapRun (List.replicate 12 0) [10, 20, 30] =
      (List.replicate 12 0, some "ValueError") :=
  C10_displayMap_raises 2 (List.replicate 12 0) [10, 20, 30] (by decide) (by decide)

end PltSlamShow
